import Mathlib

/-!
# Orgo: resolvers and token middleware

A shallow embedding of `src/server/schemas/resolvers.js` and
`src/server/utils/auth.js`.

* The three Mongoose collections are lists of documents inside a `Store`.
* A resolver is a function from a store to a result (a value or a thrown
  error) together with the store it leaves behind: an error thrown half-way
  does not undo the writes that were already made.
* Object ids are natural numbers. Where the code writes an id into a string
  field, its decimal rendering is stored.
-/

deriving instance DecidableEq for Except

namespace Orgo

/-! ## Data model -/

abbrev Id := Nat

/-- Content fields of a document, as key and value pairs. -/
abbrev Fields := List (String × String)

/-- The payload `{ username, email, _id }` carried by a token and attached to a request
as `context.user`. -/
structure Identity where
  username : String
  email : String
  _id : Id
deriving DecidableEq, Repr

/-- Modelled from the spec: the User schema of `../models` (not among the sources):
identifier, username, email, hashed password, version key, owned aspiration ids, owned
folder ids. -/
structure UserDoc where
  _id : Id
  username : String
  email : String
  password : String
  __v : Nat
  aspirations : List Id
  folders : List Id
deriving DecidableEq, Repr

/-- Modelled from the spec: the Folder schema of `../models` (not among the sources):
identifier, owner username, title and metadata fields, contained aspiration ids, creation
timestamp. -/
structure FolderDoc where
  _id : Id
  username : String
  fields : Fields
  aspirations : List Id
  createdAt : Nat
deriving DecidableEq, Repr

/-- Modelled from the spec: the Aspiration schema of `../models` (not among the sources):
identifier, owner username, content fields, owning folder id, creation timestamp. -/
structure AspirationDoc where
  _id : Id
  username : String
  fields : Fields
  folderId : Id
  createdAt : Nat
deriving DecidableEq, Repr

/-- The database: three collections, the object-id generator and the clock that stamps
`createdAt`. -/
structure Store where
  users : List UserDoc
  folders : List FolderDoc
  aspirations : List AspirationDoc
  nextId : Id
  clock : Nat
deriving DecidableEq, Repr

/-- Errors a resolver can throw. -/
inductive Err where
  | AuthenticationError (message : String)
  | CastError (path : String)
deriving DecidableEq, Repr

/-- The `context` argument of a resolver; `user` is absent for an unauthenticated
request. -/
structure Context where
  user : Option Identity
deriving DecidableEq, Repr

/-! ## Store operations -/

/-- A store operation: runs on a store, yields a value or throws, and leaves a store. -/
def Op (α : Type) : Type := Store → Except Err α × Store

def Op.ret {α : Type} (a : α) : Op α := fun s => (.ok a, s)

def Op.andThen {α β : Type} (m : Op α) (f : α → Op β) : Op β := fun s =>
  match m s with
  | (.ok a, s1) => f a s1
  | (.error e, s1) => (.error e, s1)

def Op.throw {α : Type} (e : Err) : Op α := fun s => (.error e, s)

instance : Monad Op where
  pure := Op.ret
  bind := Op.andThen

/-- A document with an `_id`. -/
class Doc (α : Type) where
  id : α → Id

instance : Doc UserDoc := ⟨UserDoc._id⟩
instance : Doc FolderDoc := ⟨FolderDoc._id⟩
instance : Doc AspirationDoc := ⟨AspirationDoc._id⟩

/-- The value handed to a `findById...` call where an id is expected: an id, or an object
literal with id-valued properties such as `{ _id: x }` or `{ folderId: x }`. -/
inductive IdArg where
  | oid (i : Id)
  | obj (props : List (String × Id))
deriving DecidableEq, Repr

/-- Mongoose casts the id argument to an object id: an id is taken as it is, an object
with an `_id` property casts to that property, and any other object is rejected with a
CastError at path `_id`. -/
def castObjectId : IdArg → Except Err Id
  | .oid i => .ok i
  | .obj props =>
    match props.lookup "_id" with
    | some i => .ok i
    | none => .error (.CastError "_id")

/-- Apply `f` to the first document matching `p`. -/
def updateFirst {α : Type} (p : α → Bool) (f : α → α) : List α → List α
  | [] => []
  | x :: xs => if p x then f x :: xs else x :: updateFirst p f xs

/-- Drop the first document matching `p`. -/
def deleteFirst {α : Type} (p : α → Bool) : List α → List α
  | [] => []
  | x :: xs => if p x then xs else x :: deleteFirst p xs

/-- The call `Model.findByIdAndUpdate(id, update, options)` on one collection: the matched
document after the update when `returnNew` (the option `new: true`), before it otherwise;
`none` (null) and no change when nothing matches. -/
def findByIdAndUpdateIn {α : Type} [Doc α] (coll : List α) (idArg : IdArg) (upd : α → α)
    (returnNew : Bool) : Except Err (Option α × List α) :=
  match castObjectId idArg with
  | .error e => .error e
  | .ok i =>
    match coll.find? (fun d => Doc.id d == i) with
    | none => .ok (none, coll)
    | some d => .ok (some (if returnNew then upd d else d),
        updateFirst (fun d => Doc.id d == i) upd coll)

/-- The call `Model.findByIdAndDelete(id)` on one collection: the first document with
that id goes. -/
def findByIdAndDeleteIn {α : Type} [Doc α] (coll : List α) (idArg : IdArg) :
    Except Err (Option α × List α) :=
  match castObjectId idArg with
  | .error e => .error e
  | .ok i => .ok (coll.find? (fun d => Doc.id d == i), deleteFirst (fun d => Doc.id d == i) coll)

/-- The update `$push` of one id onto an id array. -/
def push (xs : List Id) (i : Id) : List Id := xs ++ [i]

/-- The update `$pull` of one id from an id array: every occurrence goes. -/
def pull (xs : List Id) (i : Id) : List Id := xs.filter (fun x => x != i)

/-- Overwrite (or add) one content field. -/
def setField (k v : String) : Fields → Fields
  | [] => [(k, v)]
  | kv :: rest => if kv.1 = k then (k, v) :: rest else kv :: setField k v rest

/-- Overwrite the fields named in `upd`, leaving the others. -/
def assignFields (doc upd : Fields) : Fields :=
  upd.foldl (fun acc kv => setField kv.1 kv.2 acc) doc

def User.findByIdAndUpdate (idArg : IdArg) (upd : UserDoc → UserDoc) (returnNew : Bool) :
    Op (Option UserDoc) := fun s =>
  match findByIdAndUpdateIn s.users idArg upd returnNew with
  | .error e => (.error e, s)
  | .ok (r, users) => (.ok r, { s with users := users })

def Folder.findByIdAndUpdate (idArg : IdArg) (upd : FolderDoc → FolderDoc)
    (returnNew : Bool) : Op (Option FolderDoc) := fun s =>
  match findByIdAndUpdateIn s.folders idArg upd returnNew with
  | .error e => (.error e, s)
  | .ok (r, folders) => (.ok r, { s with folders := folders })

def Aspiration.findByIdAndUpdate (idArg : IdArg) (upd : AspirationDoc → AspirationDoc)
    (returnNew : Bool) : Op (Option AspirationDoc) := fun s =>
  match findByIdAndUpdateIn s.aspirations idArg upd returnNew with
  | .error e => (.error e, s)
  | .ok (r, aspirations) => (.ok r, { s with aspirations := aspirations })

def Folder.findByIdAndDelete (idArg : IdArg) : Op (Option FolderDoc) := fun s =>
  match findByIdAndDeleteIn s.folders idArg with
  | .error e => (.error e, s)
  | .ok (r, folders) => (.ok r, { s with folders := folders })

def Aspiration.findByIdAndDelete (idArg : IdArg) : Op (Option AspirationDoc) := fun s =>
  match findByIdAndDeleteIn s.aspirations idArg with
  | .error e => (.error e, s)
  | .ok (r, aspirations) => (.ok r, { s with aspirations := aspirations })

/-- The call `Aspiration.deleteMany({ folderId })`: every aspiration whose `folderId`
field is the given one goes. -/
def Aspiration.deleteMany (folderId : Id) : Op Unit := fun s =>
  (.ok (), { s with aspirations := s.aspirations.filter (fun a => a.folderId != folderId) })

/-- The call `Aspiration.create({ ...args, username })`: a document with a newly generated id. -/
def Aspiration.create (fields : Fields) (folderId : Id) (username : String) :
    Op AspirationDoc := fun s =>
  let doc : AspirationDoc :=
    { _id := s.nextId, username := username, fields := fields, folderId := folderId,
      createdAt := s.clock }
  (.ok doc, { s with aspirations := s.aspirations ++ [doc], nextId := s.nextId + 1 })

/-- The call `Folder.create({ ...args, username })`: a document with a newly generated id and an
empty aspirations array. -/
def Folder.create (fields : Fields) (username : String) : Op FolderDoc := fun s =>
  let doc : FolderDoc :=
    { _id := s.nextId, username := username, fields := fields, aspirations := [],
      createdAt := s.clock }
  (.ok doc, { s with folders := s.folders ++ [doc], nextId := s.nextId + 1 })

/-- The call `User.findOne(filter)`: the first user matching the filter. -/
def User.findOne (filter : UserDoc → Bool) : Op (Option UserDoc) := fun s =>
  (.ok (s.users.find? filter), s)

/-- The call `populate(path)` over a collection: each id is replaced by the document it names; ids
naming nothing are dropped. -/
def populate {α : Type} [Doc α] (coll : List α) (ids : List Id) : List α :=
  ids.filterMap (fun i => coll.find? (fun d => Doc.id d == i))

/-- A user as returned by `.select('-__v -password').populate('aspirations')
.populate('folders')`. -/
structure UserView where
  _id : Id
  username : String
  email : String
  aspirations : List AspirationDoc
  folders : List FolderDoc
deriving DecidableEq, Repr

def selectAndPopulate (s : Store) (u : UserDoc) : UserView :=
  { _id := u._id, username := u.username, email := u.email,
    aspirations := populate s.aspirations u.aspirations,
    folders := populate s.folders u.folders }

/-! ## Resolvers (`resolvers.js`) -/

/-- The resolver `Query.me`: the lookup is `User.findOne({})`, with the empty filter. -/
def me (context : Context) : Op (Option UserView) :=
  match context.user with
  | some _ => fun s =>
    match User.findOne (fun _ => true) s with
    | (.ok userData, s1) => (.ok (userData.map (selectAndPopulate s1)), s1)
    | (.error e, s1) => (.error e, s1)
  | none => Op.throw (.AuthenticationError "Not logged in")

structure AddAspirationArgs where
  fields : Fields
  folderId : Id
deriving DecidableEq, Repr

structure UpdateAspirationArgs where
  aspirationId : Id
  fields : Fields
deriving DecidableEq, Repr

structure AddFolderArgs where
  fields : Fields
deriving DecidableEq, Repr

structure UpdateFolderArgs where
  folderId : Id
  fields : Fields
deriving DecidableEq, Repr

/-- The resolver `Mutation.addAspiration`. -/
def addAspiration (args : AddAspirationArgs) (context : Context) : Op AspirationDoc :=
  match context.user with
  | some user => do
    let aspiration ← Aspiration.create args.fields args.folderId user.username
    let _ ← User.findByIdAndUpdate (.obj [("_id", user._id)])
      (fun u => { u with aspirations := push u.aspirations aspiration._id }) true
    let _ ← Folder.findByIdAndUpdate (.obj [("_id", args.folderId)])
      (fun f => { f with aspirations := push f.aspirations aspiration._id }) true
    pure aspiration
  | none => Op.throw (.AuthenticationError "You need to be logged in!")

/-- The resolver `Mutation.removeAspiration`. The delete call is handed the object
`{ aspirationId }`. -/
def removeAspiration (aspirationId folderId : Id) (context : Context) : Op (Option UserDoc) :=
  match context.user with
  | some user => do
    let updatedUser ← User.findByIdAndUpdate (.obj [("_id", user._id)])
      (fun u => { u with aspirations := pull u.aspirations aspirationId }) true
    let _ ← Folder.findByIdAndUpdate (.obj [("_id", folderId)])
      (fun f => { f with aspirations := pull f.aspirations aspirationId }) true
    let _ ← Aspiration.findByIdAndDelete (.obj [("aspirationId", aspirationId)])
    pure updatedUser
  | none => Op.throw (.AuthenticationError "You need to be logged in!")

/-- The resolver `Mutation.updateAspiration`. The update document is `{ ...args, username:
context.user._id }`; its `aspirationId` key is no path of the schema. The arguments are
taken to be `aspirationId` and content fields (the type definitions are not among the
sources), so the update leaves `folderId` alone. -/
def updateAspiration (args : UpdateAspirationArgs) (context : Context) :
    Op (Option AspirationDoc) :=
  match context.user with
  | some user => do
    let updatedAspiration ← Aspiration.findByIdAndUpdate (.obj [("_id", args.aspirationId)])
      (fun a => { a with fields := assignFields a.fields args.fields,
                         username := toString user._id }) false
    pure updatedAspiration
  | none => Op.throw (.AuthenticationError "You need to be logged in!")

/-- The resolver `Mutation.addFolder`. -/
def addFolder (args : AddFolderArgs) (context : Context) : Op FolderDoc :=
  match context.user with
  | some user => do
    let folder ← Folder.create args.fields user.username
    let _ ← User.findByIdAndUpdate (.obj [("_id", user._id)])
      (fun u => { u with folders := push u.folders folder._id }) true
    pure folder
  | none => Op.throw (.AuthenticationError "You need to be logged in!")

/-- The resolver `Mutation.removeFolder`. The delete call is handed the object
`{ folderId }`. -/
def removeFolder (folderId : Id) (context : Context) : Op (Option UserDoc) :=
  match context.user with
  | some user => do
    let updatedUser ← User.findByIdAndUpdate (.obj [("_id", user._id)])
      (fun u => { u with folders := pull u.folders folderId }) true
    Aspiration.deleteMany folderId
    let _ ← Folder.findByIdAndDelete (.obj [("folderId", folderId)])
    pure updatedUser
  | none => Op.throw (.AuthenticationError "You need to be logged in!")

/-- The resolver `Mutation.updateFolder`. The call goes to the Aspiration model; the
update document is `{ ...args, username: context.user._id }`, whose `folderId` key is a
path of that schema. -/
def updateFolder (args : UpdateFolderArgs) (context : Context) : Op (Option AspirationDoc) :=
  match context.user with
  | some user => do
    let updatedFolder ← Aspiration.findByIdAndUpdate (.obj [("_id", args.folderId)])
      (fun a => { a with fields := assignFields a.fields args.fields,
                         folderId := args.folderId,
                         username := toString user._id }) false
    pure updatedFolder
  | none => Op.throw (.AuthenticationError "You need to be logged in!")

/-! ## Token service (`auth.js`) -/

/-- The `jsonwebtoken` library as the code uses it. `sign payload secret expiresIn now` is
`jwt.sign({ data: payload }, secret, { expiresIn })` at time `now`;
`verify token secret maxAge now` is `jwt.verify(token, secret, { maxAge })` at time
`now`, with `none` for a thrown verification error. Times are in seconds. -/
structure JwtLib where
  sign : Identity → String → Nat → Nat → String
  verify : String → String → Nat → Nat → Option Identity

def secret : String := "mysecretsshhhhh"

/-- The expiration `2h`, in seconds. -/
def expiration : Nat := 7200

/-- The parts of the request the middleware reads, and the `user` slot it is meant to
fill. -/
structure Request where
  bodyToken : Option String
  queryToken : Option String
  authorization : Option String
  user : Option Identity
deriving DecidableEq, Repr

/-- JavaScript truthiness of a possibly absent string. -/
def truthy : Option String → Bool
  | some t => t != ""
  | none => false

/-- The operator `||` on possibly absent strings. -/
def jsOr (a b : Option String) : Option String := if truthy a then a else b

/-- The text after the last blank, trimmed: `token.split(' ').pop().trim()`. Trimming
here strips blanks, tabs and line ends; the other white space characters JavaScript also
strips do not occur in a token. -/
def lastWord (t : String) : String := ((t.splitOn " ").getLast?.getD "").trim

/-- The function `authMiddleware`. In the `try` block the statement `req.user - data;` is a
subtraction whose value is dropped, so both the successful and the failed verification
hand back the request as it came. -/
def authMiddleware (jwt : JwtLib) (now : Nat) (req : Request) : Request :=
  let token := jsOr (jsOr req.bodyToken req.queryToken) req.authorization
  let token := if truthy req.authorization then token.map lastWord else token
  if !truthy token then req
  else
    match jwt.verify (token.getD "") secret expiration now with
    | some _data => req
    | none => req

/-- The function `signToken`. -/
def signToken (jwt : JwtLib) (now : Nat) (user : Identity) : String :=
  let payload : Identity := { username := user.username, email := user.email, _id := user._id }
  jwt.sign payload secret expiration now

/-! ### A small token library for examples -/

def splitBar : List Char → List (List Char)
  | [] => [[]]
  | c :: cs =>
    if c = '|' then [] :: splitBar cs
    else
      match splitBar cs with
      | [] => [[c]]
      | w :: ws => (c :: w) :: ws

def readNat (cs : List Char) : Option Nat :=
  cs.foldl (fun acc c =>
    match acc with
    | none => none
    | some n => if c.isDigit then some (10 * n + (c.toNat - 48)) else none) (some 0)

/-- A stand-in for `jsonwebtoken`, used only to run examples: the token text is
`username|email|id|iat|exp|secret`, and verification checks the secret, the `exp` claim and
the maximal age. -/
def demoJwt : JwtLib where
  sign := fun p sec expiresIn now =>
    p.username ++ "|" ++ p.email ++ "|" ++ toString p._id ++ "|" ++ toString now ++ "|" ++
      toString (now + expiresIn) ++ "|" ++ sec
  verify := fun token sec maxAge now =>
    match splitBar token.data with
    | [u, e, i, iat, exp, sig] =>
      match readNat i, readNat iat, readNat exp with
      | some i, some iat, some exp =>
        if String.mk sig = sec ∧ now < exp ∧ now < iat + maxAge then
          some { username := String.mk u, email := String.mk e, _id := i }
        else none
      | _, _, _ => none
    | _ => none

/-! ## Referential integrity of a store -/

/-- Referential integrity: every aspiration id in a user or folder list names an existing
aspiration, and every folder id in a user list names an existing folder. -/
def RefIntegrity (s : Store) : Prop :=
  (∀ u ∈ s.users, ∀ i ∈ u.aspirations, ∃ a ∈ s.aspirations, a._id = i) ∧
  (∀ f ∈ s.folders, ∀ i ∈ f.aspirations, ∃ a ∈ s.aspirations, a._id = i) ∧
  (∀ u ∈ s.users, ∀ i ∈ u.folders, ∃ f ∈ s.folders, f._id = i)

instance (s : Store) : Decidable (RefIntegrity s) := by
  unfold RefIntegrity
  infer_instance

/-! ## Example data -/

def alice : Identity := { username := "alice", email := "alice@x.com", _id := 1 }

def bob : Identity := { username := "bob", email := "bob@x.com", _id := 2 }

/-- Two users; alice owns folder 5, which holds her aspirations 10 and 11. -/
def store0 : Store :=
  { users :=
      [ { _id := 1, username := "alice", email := "alice@x.com", password := "h1", __v := 0,
          aspirations := [10, 11], folders := [5] },
        { _id := 2, username := "bob", email := "bob@x.com", password := "h2", __v := 0,
          aspirations := [], folders := [] } ],
    folders :=
      [ { _id := 5, username := "alice", fields := [("title", "health")],
          aspirations := [10, 11], createdAt := 3 } ],
    aspirations :=
      [ { _id := 10, username := "alice", fields := [("title", "run")], folderId := 5,
          createdAt := 4 },
        { _id := 11, username := "alice", fields := [("title", "swim")], folderId := 5,
          createdAt := 6 } ],
    nextId := 12,
    clock := 9 }

/-! ## Running store operations -/

@[simp] theorem Op.bind_run {α β : Type} (m : Op α) (f : α → Op β) (s : Store) :
    (m >>= f) s = Op.andThen m f s := rfl

@[simp] theorem Op.pure_run {α : Type} (a : α) (s : Store) :
    (pure a : Op α) s = (Except.ok a, s) := rfl

@[simp] theorem Op.throw_run {α : Type} (e : Err) (s : Store) :
    (Op.throw e : Op α) s = (Except.error e, s) := rfl

@[simp] theorem castObjectId_id (i : Id) : castObjectId (.obj [("_id", i)]) = .ok i := by
  simp [castObjectId, List.lookup]

/-! ## Unauthenticated calls -/

/-- C1: with no user in the context, each of the six protected mutations throws the same
AuthenticationError and hands back the store it was given, whatever the store and the
arguments. -/
theorem unauthenticated_mutations_rejected (s : Store) (a1 : AddAspirationArgs)
    (aspirationId folderId : Id) (a3 : UpdateAspirationArgs) (a4 : AddFolderArgs)
    (a6 : UpdateFolderArgs) :
    addAspiration a1 { user := none } s
        = (.error (.AuthenticationError "You need to be logged in!"), s) ∧
    removeAspiration aspirationId folderId { user := none } s
        = (.error (.AuthenticationError "You need to be logged in!"), s) ∧
    updateAspiration a3 { user := none } s
        = (.error (.AuthenticationError "You need to be logged in!"), s) ∧
    addFolder a4 { user := none } s
        = (.error (.AuthenticationError "You need to be logged in!"), s) ∧
    removeFolder folderId { user := none } s
        = (.error (.AuthenticationError "You need to be logged in!"), s) ∧
    updateFolder a6 { user := none } s
        = (.error (.AuthenticationError "You need to be logged in!"), s) :=
  ⟨rfl, rfl, rfl, rfl, rfl, rfl⟩

/-! ## The token round trip -/

/-- The middleware hands back the request it was given, whatever the token library
answers. -/
theorem authMiddleware_returns_request (jwt : JwtLib) (now : Nat) (req : Request) :
    authMiddleware jwt now req = req := by
  unfold authMiddleware
  simp only
  split_ifs
  · rfl
  · split <;> rfl
  · rfl
  · split <;> rfl

/-- C2: alice signs in at time 100 and presents her token at time 200, inside the two-hour
window, in the body, in the query, or as a Bearer header. The token verifies to her
identity, yet the request the middleware returns carries no user. -/
theorem authMiddleware_drops_identity :
    demoJwt.verify (signToken demoJwt 100 alice) secret expiration 200 = some alice ∧
    (authMiddleware demoJwt 200
      { bodyToken := some (signToken demoJwt 100 alice), queryToken := none,
        authorization := none, user := none }).user = none ∧
    (authMiddleware demoJwt 200
      { bodyToken := none, queryToken := some (signToken demoJwt 100 alice),
        authorization := none, user := none }).user = none ∧
    (authMiddleware demoJwt 200
      { bodyToken := none, queryToken := none,
        authorization := some ("Bearer " ++ signToken demoJwt 100 alice),
        user := none }).user = none := by
  refine ⟨by decide, ?_, ?_, ?_⟩ <;> rw [authMiddleware_returns_request]

/-! ## Lists of documents -/

theorem updateFirst_of_find?_none {α : Type} (p : α → Bool) (f : α → α) (l : List α)
    (h : l.find? p = none) : updateFirst p f l = l := by
  revert h
  induction l with
  | nil => intro _; rfl
  | cons x xs ih =>
    intro h
    cases hx : p x with
    | true => simp [List.find?, hx] at h
    | false =>
      have h1 : xs.find? p = none := by simpa [List.find?, hx] using h
      simp [updateFirst, hx, ih h1]

theorem mem_updateFirst {α : Type} (p : α → Bool) (f : α → α) (l : List α) (y : α)
    (h : y ∈ updateFirst p f l) : y ∈ l ∨ ∃ x ∈ l, y = f x := by
  revert h
  induction l with
  | nil => intro h; simp [updateFirst] at h
  | cons x xs ih =>
    intro h
    cases hx : p x with
    | true =>
      simp only [updateFirst, hx, if_true, List.mem_cons] at h
      rcases h with h1 | h1
      · exact Or.inr ⟨x, List.mem_cons_self _ _, h1⟩
      · exact Or.inl (List.mem_cons_of_mem _ h1)
    | false =>
      simp only [updateFirst, hx, List.mem_cons, Bool.false_eq_true, if_false] at h
      rcases h with h1 | h1
      · exact Or.inl (h1 ▸ List.mem_cons_self _ _)
      · rcases ih h1 with h2 | ⟨z, hz, hy⟩
        · exact Or.inl (List.mem_cons_of_mem _ h2)
        · exact Or.inr ⟨z, List.mem_cons_of_mem _ hz, hy⟩

theorem map_updateFirst {α β : Type} (p : α → Bool) (f : α → α) (g : α → β)
    (hg : ∀ x, g (f x) = g x) (l : List α) : (updateFirst p f l).map g = l.map g := by
  induction l with
  | nil => rfl
  | cons x xs ih =>
    by_cases hx : p x = true
    · simp [updateFirst, hx, hg]
    · simp [updateFirst, hx, ih]

theorem find?_updateFirst {α : Type} (p : α → Bool) (f : α → α)
    (hp : ∀ x, p (f x) = p x) (l : List α) :
    (updateFirst p f l).find? p = (l.find? p).map f := by
  induction l with
  | nil => rfl
  | cons x xs ih =>
    by_cases hx : p x = true
    · simp [updateFirst, hx, List.find?, hp]
    · simp only [Bool.not_eq_true] at hx
      simp [updateFirst, hx, List.find?, ih]

theorem find?_isSome_of_id {α : Type} (key : α → Id) (l : List α) (i : Id)
    (h : ∃ x ∈ l, key x = i) : ∃ y, l.find? (fun d => key d == i) = some y := by
  obtain ⟨x, hx, hk⟩ := h
  cases hfind : l.find? (fun d => key d == i) with
  | some y => exact ⟨y, rfl⟩
  | none =>
    have := List.find?_eq_none.mp hfind x hx
    simp [hk] at this

/-! ## What the store calls do when the id argument is `{ _id: i }` -/

theorem findByIdAndUpdateIn_id {α : Type} [Doc α] (coll : List α) (i : Id) (upd : α → α)
    (returnNew : Bool) :
    findByIdAndUpdateIn coll (.obj [("_id", i)]) upd returnNew
      = .ok ((coll.find? (fun d => Doc.id d == i)).map (fun d => if returnNew then upd d else d),
          updateFirst (fun d => Doc.id d == i) upd coll) := by
  unfold findByIdAndUpdateIn
  rw [castObjectId_id]
  cases h : coll.find? (fun d => Doc.id d == i) with
  | none => simp [h, updateFirst_of_find?_none _ _ _ h]
  | some d => simp [h]

@[simp] theorem user_findByIdAndUpdate_id (i : Id) (upd : UserDoc → UserDoc) (returnNew : Bool)
    (s : Store) :
    User.findByIdAndUpdate (.obj [("_id", i)]) upd returnNew s
      = (.ok ((s.users.find? (fun d => d._id == i)).map
            (fun d => if returnNew then upd d else d)),
          { s with users := updateFirst (fun d => d._id == i) upd s.users }) := by
  unfold User.findByIdAndUpdate
  rw [findByIdAndUpdateIn_id]
  rfl

@[simp] theorem folder_findByIdAndUpdate_id (i : Id) (upd : FolderDoc → FolderDoc)
    (returnNew : Bool) (s : Store) :
    Folder.findByIdAndUpdate (.obj [("_id", i)]) upd returnNew s
      = (.ok ((s.folders.find? (fun d => d._id == i)).map
            (fun d => if returnNew then upd d else d)),
          { s with folders := updateFirst (fun d => d._id == i) upd s.folders }) := by
  unfold Folder.findByIdAndUpdate
  rw [findByIdAndUpdateIn_id]
  rfl

@[simp] theorem aspiration_findByIdAndUpdate_id (i : Id) (upd : AspirationDoc → AspirationDoc)
    (returnNew : Bool) (s : Store) :
    Aspiration.findByIdAndUpdate (.obj [("_id", i)]) upd returnNew s
      = (.ok ((s.aspirations.find? (fun d => d._id == i)).map
            (fun d => if returnNew then upd d else d)),
          { s with aspirations := updateFirst (fun d => d._id == i) upd s.aspirations }) := by
  unfold Aspiration.findByIdAndUpdate
  rw [findByIdAndUpdateIn_id]
  rfl

/-- An object literal without an `_id` property is no id: the delete call throws and the
collection stays as it is. -/
@[simp] theorem aspiration_findByIdAndDelete_other (i : Id) (s : Store) :
    Aspiration.findByIdAndDelete (.obj [("aspirationId", i)]) s
      = (.error (.CastError "_id"), s) := by
  simp [Aspiration.findByIdAndDelete, findByIdAndDeleteIn, castObjectId, List.lookup]

@[simp] theorem folder_findByIdAndDelete_other (i : Id) (s : Store) :
    Folder.findByIdAndDelete (.obj [("folderId", i)]) s
      = (.error (.CastError "_id"), s) := by
  simp [Folder.findByIdAndDelete, findByIdAndDeleteIn, castObjectId, List.lookup]

/-! ## The resolvers, run on a store -/

theorem addAspiration_run (args : AddAspirationArgs) (user : Identity) (s : Store) :
    addAspiration args { user := some user } s
      = (.ok { _id := s.nextId, username := user.username, fields := args.fields,
               folderId := args.folderId, createdAt := s.clock },
          { users := updateFirst (fun d => d._id == user._id)
              (fun u => { u with aspirations := push u.aspirations s.nextId }) s.users,
            folders := updateFirst (fun d => d._id == args.folderId)
              (fun f => { f with aspirations := push f.aspirations s.nextId }) s.folders,
            aspirations := s.aspirations ++
              [{ _id := s.nextId, username := user.username, fields := args.fields,
                 folderId := args.folderId, createdAt := s.clock }],
            nextId := s.nextId + 1,
            clock := s.clock }) := by
  simp [addAspiration, Op.andThen, Aspiration.create]

theorem removeAspiration_run (aspirationId folderId : Id) (user : Identity) (s : Store) :
    removeAspiration aspirationId folderId { user := some user } s
      = (.error (.CastError "_id"),
          { s with
            users := updateFirst (fun d => d._id == user._id)
              (fun u => { u with aspirations := pull u.aspirations aspirationId }) s.users,
            folders := updateFirst (fun d => d._id == folderId)
              (fun f => { f with aspirations := pull f.aspirations aspirationId }) s.folders }) := by
  simp [removeAspiration, Op.andThen]

theorem updateAspiration_run (args : UpdateAspirationArgs) (user : Identity) (s : Store) :
    updateAspiration args { user := some user } s
      = (.ok (s.aspirations.find? (fun d => d._id == args.aspirationId)),
          { s with
            aspirations := updateFirst (fun d => d._id == args.aspirationId)
              (fun a => { a with fields := assignFields a.fields args.fields,
                                 username := toString user._id }) s.aspirations }) := by
  simp [updateAspiration, Op.andThen]

theorem addFolder_run (args : AddFolderArgs) (user : Identity) (s : Store) :
    addFolder args { user := some user } s
      = (.ok { _id := s.nextId, username := user.username, fields := args.fields,
               aspirations := [], createdAt := s.clock },
          { users := updateFirst (fun d => d._id == user._id)
              (fun u => { u with folders := push u.folders s.nextId }) s.users,
            folders := s.folders ++
              [{ _id := s.nextId, username := user.username, fields := args.fields,
                 aspirations := [], createdAt := s.clock }],
            aspirations := s.aspirations,
            nextId := s.nextId + 1,
            clock := s.clock }) := by
  simp [addFolder, Op.andThen, Folder.create]

theorem removeFolder_run (folderId : Id) (user : Identity) (s : Store) :
    removeFolder folderId { user := some user } s
      = (.error (.CastError "_id"),
          { s with
            users := updateFirst (fun d => d._id == user._id)
              (fun u => { u with folders := pull u.folders folderId }) s.users,
            aspirations := s.aspirations.filter (fun a => a.folderId != folderId) }) := by
  simp [removeFolder, Op.andThen, Aspiration.deleteMany]

theorem updateFolder_run (args : UpdateFolderArgs) (user : Identity) (s : Store) :
    updateFolder args { user := some user } s
      = (.ok (s.aspirations.find? (fun d => d._id == args.folderId)),
          { s with
            aspirations := updateFirst (fun d => d._id == args.folderId)
              (fun a => { a with fields := assignFields a.fields args.fields,
                                 folderId := args.folderId,
                                 username := toString user._id }) s.aspirations }) := by
  simp [updateFolder, Op.andThen]

/-! ## Referential integrity -/

theorem exists_id_updateFirst {α : Type} (key : α → Id) (p : α → Bool) (f : α → α)
    (hkey : ∀ x, key (f x) = key x) (l : List α) (i : Id) (h : ∃ x ∈ l, key x = i) :
    ∃ x ∈ updateFirst p f l, key x = i := by
  have h1 : i ∈ l.map key := List.mem_map.mpr h
  rw [← map_updateFirst p f key hkey l] at h1
  exact List.mem_map.mp h1

theorem refIntegrity_addAspiration (s : Store) (uid fid n c : Nat) (doc : AspirationDoc)
    (h : RefIntegrity s) :
    RefIntegrity
      { users := updateFirst (fun d => d._id == uid)
          (fun u => { u with aspirations := push u.aspirations doc._id }) s.users,
        folders := updateFirst (fun d => d._id == fid)
          (fun f => { f with aspirations := push f.aspirations doc._id }) s.folders,
        aspirations := s.aspirations ++ [doc],
        nextId := n,
        clock := c } := by
  obtain ⟨h1, h2, h3⟩ := h
  refine ⟨?_, ?_, ?_⟩
  · intro u hu i hi
    rcases mem_updateFirst _ _ _ _ hu with hu1 | ⟨x, hx, rfl⟩
    · obtain ⟨a, ha, e⟩ := h1 u hu1 i hi
      exact ⟨a, List.mem_append_left _ ha, e⟩
    · simp only [push, List.mem_append, List.mem_singleton] at hi
      rcases hi with hi1 | hi1
      · obtain ⟨a, ha, e⟩ := h1 x hx i hi1
        exact ⟨a, List.mem_append_left _ ha, e⟩
      · exact ⟨doc, by simp, hi1.symm⟩
  · intro f hf i hi
    rcases mem_updateFirst _ _ _ _ hf with hf1 | ⟨x, hx, rfl⟩
    · obtain ⟨a, ha, e⟩ := h2 f hf1 i hi
      exact ⟨a, List.mem_append_left _ ha, e⟩
    · simp only [push, List.mem_append, List.mem_singleton] at hi
      rcases hi with hi1 | hi1
      · obtain ⟨a, ha, e⟩ := h2 x hx i hi1
        exact ⟨a, List.mem_append_left _ ha, e⟩
      · exact ⟨doc, by simp, hi1.symm⟩
  · intro u hu i hi
    show ∃ f ∈ updateFirst _ _ s.folders, f._id = i
    refine exists_id_updateFirst FolderDoc._id _ _ ?_ _ _ ?_
    · intro _
      rfl
    · rcases mem_updateFirst _ _ _ _ hu with hu1 | ⟨x, hx, rfl⟩
      · exact h3 u hu1 i hi
      · exact h3 x hx i hi

theorem refIntegrity_updateAspirations (s : Store) (p : AspirationDoc → Bool)
    (upd : AspirationDoc → AspirationDoc) (hupd : ∀ a, (upd a)._id = a._id)
    (h : RefIntegrity s) :
    RefIntegrity { s with aspirations := updateFirst p upd s.aspirations } := by
  obtain ⟨h1, h2, h3⟩ := h
  refine ⟨?_, ?_, h3⟩
  · intro u hu i hi
    exact exists_id_updateFirst AspirationDoc._id _ _ hupd _ _ (h1 u hu i hi)
  · intro f hf i hi
    exact exists_id_updateFirst AspirationDoc._id _ _ hupd _ _ (h2 f hf i hi)

theorem refIntegrity_addFolder (s : Store) (uid n c : Nat) (doc : FolderDoc)
    (hdoc : doc.aspirations = []) (h : RefIntegrity s) :
    RefIntegrity
      { users := updateFirst (fun d => d._id == uid)
          (fun u => { u with folders := push u.folders doc._id }) s.users,
        folders := s.folders ++ [doc],
        aspirations := s.aspirations,
        nextId := n,
        clock := c } := by
  obtain ⟨h1, h2, h3⟩ := h
  refine ⟨?_, ?_, ?_⟩
  · intro u hu i hi
    rcases mem_updateFirst _ _ _ _ hu with hu1 | ⟨x, hx, rfl⟩
    · exact h1 u hu1 i hi
    · exact h1 x hx i hi
  · intro f hf i hi
    simp only [List.mem_append, List.mem_singleton] at hf
    rcases hf with hf1 | rfl
    · exact h2 f hf1 i hi
    · rw [hdoc] at hi
      cases hi
  · intro u hu i hi
    rcases mem_updateFirst _ _ _ _ hu with hu1 | ⟨x, hx, rfl⟩
    · obtain ⟨f, hf, e⟩ := h3 u hu1 i hi
      exact ⟨f, List.mem_append_left _ hf, e⟩
    · simp only [push, List.mem_append, List.mem_singleton] at hi
      rcases hi with hi1 | hi1
      · obtain ⟨f, hf, e⟩ := h3 x hx i hi1
        exact ⟨f, List.mem_append_left _ hf, e⟩
      · exact ⟨doc, by simp, hi1.symm⟩

theorem refIntegrity_removeAspiration (s : Store) (uid fid aid : Id) (h : RefIntegrity s) :
    RefIntegrity
      { s with
        users := updateFirst (fun d => d._id == uid)
          (fun u => { u with aspirations := pull u.aspirations aid }) s.users,
        folders := updateFirst (fun d => d._id == fid)
          (fun f => { f with aspirations := pull f.aspirations aid }) s.folders } := by
  obtain ⟨h1, h2, h3⟩ := h
  refine ⟨?_, ?_, ?_⟩
  · intro u hu i hi
    rcases mem_updateFirst _ _ _ _ hu with hu1 | ⟨x, hx, rfl⟩
    · exact h1 u hu1 i hi
    · exact h1 x hx i (List.mem_filter.mp hi).1
  · intro f hf i hi
    rcases mem_updateFirst _ _ _ _ hf with hf1 | ⟨x, hx, rfl⟩
    · exact h2 f hf1 i hi
    · exact h2 x hx i (List.mem_filter.mp hi).1
  · intro u hu i hi
    show ∃ f ∈ updateFirst _ _ s.folders, f._id = i
    refine exists_id_updateFirst FolderDoc._id _ _ ?_ _ _ ?_
    · intro _
      rfl
    · rcases mem_updateFirst _ _ _ _ hu with hu1 | ⟨x, hx, rfl⟩
      · exact h3 u hu1 i hi
      · exact h3 x hx i hi

/-- Every authenticated protected mutation other than `removeFolder` leaves a store with
referential integrity when it starts from one. For `removeAspiration` that is the store
left behind by the call that throws: both lists lose the id and no record is deleted. -/
theorem refIntegrity_kept_by_other_mutations (user : Identity) (s : Store)
    (a1 : AddAspirationArgs) (aspirationId folderId : Id) (a3 : UpdateAspirationArgs)
    (a4 : AddFolderArgs) (a6 : UpdateFolderArgs) (h : RefIntegrity s) :
    RefIntegrity (addAspiration a1 { user := some user } s).2 ∧
    RefIntegrity (removeAspiration aspirationId folderId { user := some user } s).2 ∧
    RefIntegrity (updateAspiration a3 { user := some user } s).2 ∧
    RefIntegrity (addFolder a4 { user := some user } s).2 ∧
    RefIntegrity (updateFolder a6 { user := some user } s).2 := by
  refine ⟨?_, ?_, ?_, ?_, ?_⟩
  · rw [addAspiration_run]
    exact refIntegrity_addAspiration s user._id a1.folderId _ _
      { _id := s.nextId, username := user.username, fields := a1.fields,
        folderId := a1.folderId, createdAt := s.clock } h
  · rw [removeAspiration_run]
    exact refIntegrity_removeAspiration s user._id folderId aspirationId h
  · rw [updateAspiration_run]
    exact refIntegrity_updateAspirations s _ _ (fun _ => rfl) h
  · rw [addFolder_run]
    exact refIntegrity_addFolder s user._id _ _
      { _id := s.nextId, username := user.username, fields := a4.fields,
        aspirations := [], createdAt := s.clock } rfl h
  · rw [updateFolder_run]
    exact refIntegrity_updateAspirations s _ _ (fun _ => rfl) h

/-- An authenticated `removeAspiration` or `removeFolder` never returns: its last store call
throws. -/
theorem remove_calls_throw (aspirationId folderId : Id) (user : Identity) (s : Store) :
    (removeAspiration aspirationId folderId { user := some user } s).1
        = .error (.CastError "_id") ∧
    (removeFolder folderId { user := some user } s).1 = .error (.CastError "_id") := by
  simp [removeAspiration_run, removeFolder_run]

/-- C3: the example store has referential integrity and alice removes her folder 5. The
call deletes aspirations 10 and 11 but never pulls their ids from a user list, so the store
it leaves has alice still listing 10 and 11 with no such aspirations: referential integrity
is lost. The call itself ends in the CastError of its last store call; deleting the folder
record afterwards with a well-formed id argument does not restore referential integrity,
because the ids stay in the list of alice. -/
theorem removeFolder_breaks_refIntegrity :
    RefIntegrity store0 ∧
    ¬ RefIntegrity (removeFolder 5 { user := some alice } store0).2 ∧
    (removeFolder 5 { user := some alice } store0).2.aspirations = [] ∧
    ((removeFolder 5 { user := some alice } store0).2.users.find?
      (fun u => u._id == 1)).map (fun u => u.aspirations) = some [10, 11] ∧
    (removeFolder 5 { user := some alice } store0).1 = .error (.CastError "_id") ∧
    ¬ RefIntegrity
      (Folder.findByIdAndDelete (.obj [("_id", 5)])
        (removeFolder 5 { user := some alice } store0).2).2 := by
  decide

/-! ## addAspiration -/

/-- C4: an authenticated `addAspiration` whose `folderId` names an existing folder returns
the aspiration it created, owned by the caller's username and stored in the aspirations
collection; afterwards its id is in the aspirations list of the calling user's record and
in that of the folder `folderId`. -/
theorem addAspiration_links_user_and_folder (args : AddAspirationArgs) (user : Identity)
    (s : Store) (hu : ∃ u ∈ s.users, u._id = user._id)
    (hf : ∃ f ∈ s.folders, f._id = args.folderId) :
    ∃ a s1, addAspiration args { user := some user } s = (.ok a, s1) ∧
      a = { _id := s.nextId, username := user.username, fields := args.fields,
            folderId := args.folderId, createdAt := s.clock } ∧
      s1.aspirations = s.aspirations ++ [a] ∧
      (∃ u1, s1.users.find? (fun d => d._id == user._id) = some u1 ∧ a._id ∈ u1.aspirations) ∧
      (∃ f1, s1.folders.find? (fun d => d._id == args.folderId) = some f1 ∧
        a._id ∈ f1.aspirations) := by
  obtain ⟨u, hfu⟩ := find?_isSome_of_id UserDoc._id s.users user._id hu
  obtain ⟨f, hff⟩ := find?_isSome_of_id FolderDoc._id s.folders args.folderId hf
  refine ⟨_, _, addAspiration_run args user s, rfl, rfl, ?_, ?_⟩
  · refine ⟨{ u with aspirations := push u.aspirations s.nextId }, ?_, by simp [push]⟩
    show List.find? _ (updateFirst _ _ s.users) = _
    rw [find?_updateFirst, hfu]
    · rfl
    · intro _
      rfl
  · refine ⟨{ f with aspirations := push f.aspirations s.nextId }, ?_, by simp [push]⟩
    show List.find? _ (updateFirst _ _ s.folders) = _
    rw [find?_updateFirst, hff]
    · rfl
    · intro _
      rfl

/-- In the example store alice and folder 5 exist; alice adds an aspiration to folder 5. -/
theorem addAspiration_links_user_and_folder_witness :
    (∃ u ∈ store0.users, u._id = alice._id) ∧ (∃ f ∈ store0.folders, f._id = 5) ∧
    ∃ a s1, addAspiration { fields := [("title", "read")], folderId := 5 }
        { user := some alice } store0 = (.ok a, s1) ∧
      a = { _id := store0.nextId, username := alice.username, fields := [("title", "read")],
            folderId := 5, createdAt := store0.clock } ∧
      s1.aspirations = store0.aspirations ++ [a] ∧
      (∃ u1, s1.users.find? (fun d => d._id == alice._id) = some u1 ∧ a._id ∈ u1.aspirations) ∧
      (∃ f1, s1.folders.find? (fun d => d._id == 5) = some f1 ∧ a._id ∈ f1.aspirations) :=
  ⟨by decide, by decide,
    addAspiration_links_user_and_folder { fields := [("title", "read")], folderId := 5 } alice
      store0 (by decide) (by decide)⟩

/-! ## removeAspiration -/

/-- C5: alice removes her aspiration 10 from folder 5. The id leaves her list and the list
of the folder, but the call throws a CastError instead of returning the updated user, and
the aspiration record 10 is still in the aspirations collection. -/
theorem removeAspiration_keeps_record :
    (removeAspiration 10 5 { user := some alice } store0).1 = .error (.CastError "_id") ∧
    (∃ a ∈ (removeAspiration 10 5 { user := some alice } store0).2.aspirations, a._id = 10) ∧
    (removeAspiration 10 5 { user := some alice } store0).2.aspirations = store0.aspirations ∧
    (∀ u ∈ (removeAspiration 10 5 { user := some alice } store0).2.users,
      10 ∉ u.aspirations) ∧
    (∀ f ∈ (removeAspiration 10 5 { user := some alice } store0).2.folders,
      10 ∉ f.aspirations) := by
  decide

/-! ## removeFolder -/

/-- C6: alice removes her folder 5, which holds aspirations 10 and 11. Afterwards no
aspiration of folder 5 is left and 5 is gone from her folders list, but the call throws a
CastError instead of returning the updated user. -/
theorem removeFolder_throws_after_cascade :
    (removeFolder 5 { user := some alice } store0).1 = .error (.CastError "_id") ∧
    (∀ a ∈ (removeFolder 5 { user := some alice } store0).2.aspirations, a.folderId ≠ 5) ∧
    (∀ u ∈ (removeFolder 5 { user := some alice } store0).2.users, 5 ∉ u.folders) := by
  decide

/-- C7: after alice removes her folder 5, the folder record 5 is still in the folders
collection, which is as it was before the call. -/
theorem removeFolder_keeps_folder_record :
    (∃ f ∈ (removeFolder 5 { user := some alice } store0).2.folders, f._id = 5) ∧
    (removeFolder 5 { user := some alice } store0).2.folders = store0.folders := by
  decide

/-- An authenticated `removeFolder` never changes the folders collection. -/
theorem removeFolder_folders_unchanged (folderId : Id) (user : Identity) (s : Store) :
    (removeFolder folderId { user := some user } s).2.folders = s.folders := by
  rw [removeFolder_run]

/-- An authenticated `removeAspiration` never changes the aspirations collection. -/
theorem removeAspiration_aspirations_unchanged (aspirationId folderId : Id) (user : Identity)
    (s : Store) :
    (removeAspiration aspirationId folderId { user := some user } s).2.aspirations
      = s.aspirations := by
  rw [removeAspiration_run]

/-! ## updateFolder -/

/-- C8: alice renames her folder 5. The call looks for an aspiration with id 5, finds none,
returns null and leaves the store, the folder record included, as it was. -/
theorem updateFolder_misses_folder :
    updateFolder { folderId := 5, fields := [("title", "fitness")] } { user := some alice }
      store0 = (.ok none, store0) ∧
    store0.folders.find? (fun f => f._id == 5)
      = some { _id := 5, username := "alice", fields := [("title", "health")],
               aspirations := [10, 11], createdAt := 3 } := by
  decide

/-- An authenticated `updateFolder` never changes the folders collection. -/
theorem updateFolder_folders_unchanged (args : UpdateFolderArgs) (user : Identity)
    (s : Store) : (updateFolder args { user := some user } s).2.folders = s.folders := by
  rw [updateFolder_run]

/-- When an aspiration carries the id passed as `folderId`, `updateFolder` overwrites that
aspiration: the aspirations collection changes. -/
theorem updateFolder_overwrites_aspiration :
    (updateFolder { folderId := 10, fields := [("title", "fitness")] } { user := some alice }
      store0).2.aspirations
      = [ { _id := 10, username := "1", fields := [("title", "fitness")], folderId := 10,
            createdAt := 4 },
          { _id := 11, username := "alice", fields := [("title", "swim")], folderId := 5,
            createdAt := 6 } ] := by
  decide

/-! ## updateAspiration -/

/-- C9: alice, the owner, retitles her aspiration 10. The call returns the aspiration as
it was before, and the stored record has the new title and the same id, but its owner
username is now the rendering of her user id, no longer `alice`. -/
theorem updateAspiration_overwrites_username :
    (updateAspiration { aspirationId := 10, fields := [("title", "walk")] }
      { user := some alice } store0).1
      = .ok (some { _id := 10, username := "alice", fields := [("title", "run")],
                    folderId := 5, createdAt := 4 }) ∧
    (updateAspiration { aspirationId := 10, fields := [("title", "walk")] }
      { user := some alice } store0).2.aspirations.find? (fun a => a._id == 10)
      = some { _id := 10, username := "1", fields := [("title", "walk")],
               folderId := 5, createdAt := 4 } := by
  decide

/-! ## me -/

/-- C10: with alice and bob in the store, bob asks for `me` and gets the record of
alice, the first user of the collection. -/
theorem me_returns_first_user :
    (me { user := some bob } store0).1
      = .ok (some
          { _id := 1, username := "alice", email := "alice@x.com",
            aspirations :=
              [ { _id := 10, username := "alice", fields := [("title", "run")], folderId := 5,
                  createdAt := 4 },
                { _id := 11, username := "alice", fields := [("title", "swim")], folderId := 5,
                  createdAt := 6 } ],
            folders :=
              [ { _id := 5, username := "alice", fields := [("title", "health")],
                  aspirations := [10, 11], createdAt := 3 } ] }) ∧
    bob._id = 2 := by
  decide

/-- Whoever is authenticated, `me` answers with the first user of the collection. -/
theorem me_ignores_identity (user1 user2 : Identity) (s : Store) :
    me { user := some user1 } s = me { user := some user2 } s := rfl

/-- With no user in the context `me` throws an AuthenticationError and leaves the
store. -/
theorem me_unauthenticated (s : Store) :
    me { user := none } s = (.error (.AuthenticationError "Not logged in"), s) := rfl

end Orgo
